import Mathlib

/-!
Shallow embedding of the PyWebCAT frame-extraction pipeline
(src/pywebcat/utils.py, src/pywebcat/cli.py, src/webcat_utils.py).

The embedding keeps the source structure: the `WebCAT` session object
becomes an explicit state record, `cv2.VideoCapture` is an environment
function from a URL to the stream properties the code queries, and the
side effects of `save_frames` (directory handling, written images, the
manifest table) are recorded in an outcome record.  Python `range` is
collected to a list, with its zero-step error kept explicit.
-/

/-- Python format spec `{n:02}` for a natural number: zero-pad to width 2. -/
def pad2 (n : Nat) : String :=
  if n < 10 then "0" ++ toString n else toString n

/-- Python format spec `{n:04}` for a natural number: zero-pad to width 4. -/
def pad4 (n : Nat) : String :=
  if n < 10 then "000" ++ toString n
  else if n < 100 then "00" ++ toString n
  else if n < 1000 then "0" ++ toString n
  else toString n

/-- The URL built by `WebCAT.generate_url` in src/pywebcat/utils.py line 95:
the f-string pads month and day to 2 digits and time to 4 digits. -/
def urlOf (station : String) (year month day time : Nat) : String :=
  "http://webcat-video.axds.co/" ++ station ++ "/raw/" ++ toString year ++ "/" ++
    toString year ++ "_" ++ pad2 month ++ "/" ++
    toString year ++ "_" ++ pad2 month ++ "_" ++ pad2 day ++ "/" ++
    station ++ "." ++ toString year ++ "-" ++ pad2 month ++ "-" ++ pad2 day ++
    "_" ++ pad4 time ++ ".mp4"

/-- The URL built by `WebCAT.generate_url` in src/webcat_utils.py line 95:
same template but the f-string uses the raw values with no padding. -/
def urlOfLegacy (station : String) (year month day time : Nat) : String :=
  "http://webcat-video.axds.co/" ++ station ++ "/raw/" ++ toString year ++ "/" ++
    toString year ++ "_" ++ toString month ++ "/" ++
    toString year ++ "_" ++ toString month ++ "_" ++ toString day ++ "/" ++
    station ++ "." ++ toString year ++ "-" ++ toString month ++ "-" ++ toString day ++
    "_" ++ toString time ++ ".mp4"

/-- The session name set at line 102 of both utils files: raw, unpadded values. -/
def nameOf (station : String) (year month day time : Nat) : String :=
  station ++ "_" ++ toString year ++ "_" ++ toString month ++ "_" ++
    toString day ++ "_" ++ toString time

/-- The four stream properties the code reads off a `cv2.VideoCapture`
(`video.get(7)`, `video.get(cv2.CAP_PROP_FPS)`, `video.get(3)`, `video.get(4)`,
each truncated with `int`). -/
structure VidStream where
  frames : Nat
  fps : Nat
  width : Nat
  height : Nat
deriving DecidableEq

/-- The mutable `WebCAT` session fields, all `None` after `__init__`. -/
structure WCState where
  url : Option String
  name : Option String
  video : Option VidStream
deriving DecidableEq

/-- The state `WebCAT.__init__` leaves behind. -/
def WCState.init : WCState := ⟨none, none, none⟩

/-- The `width` property (`int(self.video.get(3))`); `none` when no video is held. -/
def WCState.width (st : WCState) : Option Nat := st.video.map VidStream.width

/-- The `height` property (`int(self.video.get(4))`). -/
def WCState.height (st : WCState) : Option Nat := st.video.map VidStream.height

/-- The `frames` property (`int(self.video.get(7))`). -/
def WCState.frames (st : WCState) : Option Nat := st.video.map VidStream.frames

/-- The `fps` property (`int(self.video.get(cv2.CAP_PROP_FPS))`). -/
def WCState.fps (st : WCState) : Option Nat := st.video.map VidStream.fps

/-- `WebCAT.generate_url` (src/pywebcat/utils.py lines 78-102).  `world` is the
environment: what `cv2.VideoCapture` reports for each URL.  The result pairs the
session state after the call with the raised `ValueError` message, if any; when
the opened stream reports zero frames the method raises without touching the
session fields, otherwise it sets `url`, `video` and `name`. -/
def generate_url (world : String → VidStream) (st : WCState)
    (station : String) (year month day time : Nat) : WCState × Option String :=
  let url := urlOf station year month day time
  let vid := world url
  if vid.frames = 0 then
    (st, some (url ++ " is not a valid url."))
  else
    (⟨some url, some (nameOf station year month day time), some vid⟩, none)

/-- `WebCAT.generate_url` of src/webcat_utils.py: identical except that the URL
is built without padding (line 95 there). -/
def generate_url_legacy (world : String → VidStream) (st : WCState)
    (station : String) (year month day time : Nat) : WCState × Option String :=
  let url := urlOfLegacy station year month day time
  let vid := world url
  if vid.frames = 0 then
    (st, some (url ++ " is not a valid url."))
  else
    (⟨some url, some (nameOf station year month day time), some vid⟩, none)

/-- Python `range(0, stop, step)` collected to a list: constructing the range
raises `ValueError` for a zero step, a negative step below a positive stop gives
the empty range, and a positive step gives `k * step` for `k < ceil(stop/step)`. -/
def pyRange (stop : Nat) (step : Int) : Except String (List Nat) :=
  if step = 0 then Except.error "range() arg 3 must not be zero"
  else if step < 0 then Except.ok []
  else Except.ok ((List.range ((stop + step.toNat - 1) / step.toNat)).map
    (fun k => k * step.toNat))

/-- Decidable equality for `Except`, so that runs of the embedded functions can
be checked on concrete inputs. -/
instance {ε α : Type} [DecidableEq ε] [DecidableEq α] : DecidableEq (Except ε α) :=
  fun x y =>
    match x, y with
    | Except.error a, Except.error b =>
      if h : a = b then Decidable.isTrue (by rw [h])
      else Decidable.isFalse (fun hc => h (by injection hc))
    | Except.error _, Except.ok _ => Decidable.isFalse (fun hc => Except.noConfusion hc)
    | Except.ok _, Except.error _ => Decidable.isFalse (fun hc => Except.noConfusion hc)
    | Except.ok a, Except.ok b =>
      if h : a = b then Decidable.isTrue (by rw [h])
      else Decidable.isFalse (fun hc => h (by injection hc))

/-- The exceptions that can escape `save_frames`: the `ValueError` of the
`delta_t` check (utils.py line 143), Python's `range` rejecting the zero step
produced at line 149, and `cv2.imwrite` rejecting the `None` frame that
`video.read()` returns for a failed decode (lines 157-158; the read success
flag is discarded, so the failure surfaces at the write of `frame_<i>.jpg`). -/
inductive SaveError where
  | intervalError (duration : Nat)
  | rangeStepZero
  | frameDecodeError (idx : Nat)
deriving DecidableEq

/-- The frame loop of `save_frames` (utils.py lines 155-158): seek to index `i`,
read, write `frame_<i>.jpg`.  `decode i` says whether the read at index `i`
succeeds.  Returns the indices written so far and the error that ended the
loop, if any: a failed read writes nothing for that index and raises. -/
def frameLoop (decode : Nat → Bool) : List Nat → List Nat × Option SaveError
  | [] => ([], none)
  | i :: rest =>
    if decode i then
      let r := frameLoop decode rest
      (i :: r.1, r.2)
    else
      ([], some (SaveError.frameDecodeError i))

/-- `os.path.join` for the two-component relative paths used here. -/
def joinPath (a b : String) : String :=
  if a = "" then b else a ++ "/" ++ b

/-- The table `pandas.DataFrame(...).to_csv` writes at utils.py lines 159-171,
as rows of comma-separated fields.  `to_csv` is called with its defaults, so the
unnamed integer index is included: the header starts with an empty field and
each data row starts with the row number. -/
def csvRows (url name fout_path : String) (idxs : List Nat) : List (List String) :=
  ["", "url", "name", "frame", "path"] ::
    idxs.enum.map (fun p =>
      [toString p.1, url, name, toString p.2,
        joinPath (joinPath fout_path "jpg") ("frame_" ++ toString p.2 ++ ".jpg")])

/-- The observable effects of one `save_frames` call: the exception that
escaped (if any), whether the pre-existing `jpg` directory was removed, whether
it was (re)created, the frame indices whose images were written, whether the
`print(self.fps)` at line 147 executed, and the manifest table, when written. -/
structure SaveOutcome where
  err : Option SaveError
  dirRemoved : Bool
  dirMade : Bool
  savedFrames : List Nat
  fpsPrinted : Bool
  csv : Option (List (List String))
deriving DecidableEq

/-- `WebCAT.save_frames` (src/pywebcat/utils.py lines 127-171).  `dirExisted`
says whether `fout_path/jpg` already exists (line 152).  The source order is
kept: the `delta_t` check raises first; `range` is constructed (and can raise
on a zero step) before any directory work; the directory is cleared and
recreated; the frame loop runs; the manifest is written last. -/
def save_frames (decode : Nat → Bool) (dirExisted : Bool) (url name : String)
    (frames fps : Nat) (delta_t : Int) (fout_path : String) (save_csv : Bool) :
    SaveOutcome :=
  if ((frames / fps : Nat) : Int) ≤ delta_t then
    ⟨some (SaveError.intervalError (frames / fps)), false, false, [], false, none⟩
  else
    match pyRange (frames + 1) (delta_t * (fps : Int)) with
    | Except.error _ =>
      ⟨some SaveError.rangeStepZero, false, false, [], true, none⟩
    | Except.ok step_range =>
      let r := frameLoop decode step_range
      match r.2 with
      | some e => ⟨some e, dirExisted, true, r.1, true, none⟩
      | none =>
        ⟨none, dirExisted, true, r.1, true,
          if save_csv then some (csvRows url name fout_path step_range) else none⟩

/-- Which print statement produced a line of batch output. -/
inductive LineKind where
  | status
  | fpsEcho
  | warning
deriving DecidableEq

/-- One line printed during a batch run: which print produced it, whether
`sys.stdout` was the devnull handle at that moment (cli.py line 25 redirects
it inside the `try`, line 27 restores it only after a successful
`generate_url`), and its text. -/
structure OutLine where
  toNull : Bool
  kind : LineKind
  text : String
deriving DecidableEq

/-- One (station, year, month, day, time) combination from the CLI lists. -/
structure Key where
  station : String
  year : Nat
  month : Nat
  day : Nat
  time : Nat
deriving DecidableEq

/-- The key's URL as pywebcat builds it. -/
def Key.url (k : Key) : String := urlOf k.station k.year k.month k.day k.time

/-- The key's canonical session name. -/
def Key.name (k : Key) : String := nameOf k.station k.year k.month k.day k.time

/-- The skip warning printed at cli.py lines 36-37; the URL is rebuilt there
with the same padded format `generate_url` uses. -/
def skipWarning (k : Key) : String :=
  "Warning: " ++ k.url ++ " not a valid url... Skipping."

/-- One iteration of the loop in cli.py `main` (lines 23-37): stdout is
redirected to devnull and `generate_url` runs; if it raises, the bare `except`
prints the warning (only when verbose) while stdout is still the devnull
handle.  Otherwise stdout is restored, the status line is printed (when
verbose) and `save_frames` runs; if that raises, the warning goes to the
restored real stdout.  Returns the session state after the iteration, the
printed lines, and the `save_frames` outcome when the key got that far. -/
def mainStep (world : String → VidStream) (decode : Nat → Bool) (dirExisted : Bool)
    (directory : String) (interval : Int) (no_meta verbose : Bool)
    (st : WCState) (k : Key) : WCState × List OutLine × Option SaveOutcome :=
  let g := generate_url world st k.station k.year k.month k.day k.time
  match g.2 with
  | some _ =>
    (g.1, (if verbose then [⟨true, LineKind.warning, skipWarning k⟩] else []), none)
  | none =>
    let st2 := g.1
    let nm := st2.name.getD ""
    let vid := st2.video.getD ⟨0, 0, 0, 0⟩
    let o := save_frames decode dirExisted (st2.url.getD "") nm vid.frames vid.fps
      interval (joinPath (joinPath directory k.station) nm) (!no_meta)
    let lines :=
      (if verbose then [⟨false, LineKind.status, "Saving frames of " ++ nm ++ "..."⟩] else [])
      ++ (if o.fpsPrinted then [⟨false, LineKind.fpsEcho, toString vid.fps⟩] else [])
      ++ (match o.err with
          | some _ => if verbose then [⟨false, LineKind.warning, skipWarning k⟩] else []
          | none => [])
    (st2, lines, some o)

/-- The `for` loop of cli.py `main` over the key cross-product, threading the
single `WebCAT` session through.  The bare `except` makes every iteration
total, so the driver itself never raises.  Returns the per-key results (the
save outcome, or `none` when the key never reached `save_frames`) and all
printed lines, in order. -/
def mainLoop (world : String → VidStream) (decode : Nat → Bool) (dirExisted : Bool)
    (directory : String) (interval : Int) (no_meta verbose : Bool) :
    WCState → List Key → List (Key × Option SaveOutcome) × List OutLine
  | _, [] => ([], [])
  | st, k :: rest =>
    let r := mainStep world decode dirExisted directory interval no_meta verbose st k
    let rr := mainLoop world decode dirExisted directory interval no_meta verbose r.1 rest
    ((k, r.2.2) :: rr.1, r.2.1 ++ rr.2)

/-- `itertools.product(station, year, month, day, time)` in cross-product order
(cli.py line 23). -/
def batchKeys (stations : List String) (years months days times : List Nat) :
    List Key :=
  stations.flatMap fun s => years.flatMap fun y => months.flatMap fun m =>
    days.flatMap fun d => times.map fun t => ⟨s, y, m, d, t⟩

/-- The keys of a batch run that were fully processed: they reached
`save_frames` and it finished without an exception. -/
def processedKeys (rs : List (Key × Option SaveOutcome)) : List Key :=
  (rs.filter fun p => match p.2 with | some o => o.err.isNone | none => false).map
    Prod.fst

/-- The warning lines among the printed output. -/
def warningLines (ls : List OutLine) : List OutLine :=
  ls.filter fun l => match l.kind with | LineKind.warning => true | _ => false

/-- The text of the lines that actually reached the real stdout. -/
def visibleLines (ls : List OutLine) : List String :=
  (ls.filter fun l => !l.toNull).map OutLine.text

/-- The `save_frames` call a key leads to in the batch loop: after a successful
`generate_url` the session holds exactly the key's url, name and stream, and
cli.py line 28 picks `directory/station/name` as the output path. -/
def keySave (world : String → VidStream) (decode : Nat → Bool) (dirExisted : Bool)
    (directory : String) (interval : Int) (no_meta : Bool) (k : Key) : SaveOutcome :=
  save_frames decode dirExisted k.url k.name (world k.url).frames (world k.url).fps
    interval (joinPath (joinPath directory k.station) k.name) (!no_meta)

/-- A directory's files as a path-content association list, newest entry first. -/
def writeFile (store : List (String × List (List String))) (path : String)
    (tbl : List (List String)) : List (String × List (List String)) :=
  (path, tbl) :: store.filter (fun e => e.1 != path)

/-- The manifest path `os.path.join(fout_path, name + ".csv")` (utils.py line 170). -/
def manifestPath (fout_path name : String) : String :=
  joinPath fout_path (name ++ ".csv")

/-- `save_frames` together with its manifest write against a directory store:
`DataFrame.to_csv` opens the path in its default write mode, replacing any
existing file of that name. -/
def save_frames_fs (store : List (String × List (List String)))
    (decode : Nat → Bool) (dirExisted : Bool) (url name : String)
    (frames fps : Nat) (delta_t : Int) (fout_path : String) (save_csv : Bool) :
    List (String × List (List String)) :=
  match (save_frames decode dirExisted url name frames fps delta_t fout_path save_csv).csv with
  | some tbl => writeFile store (manifestPath fout_path name) tbl
  | none => store

/-- A stream environment in which every URL resolves to the buxtoncoastalcam
test video (17097 frames, 28 fps, 1280x720). -/
def worldGood : String → VidStream := fun _ => ⟨17097, 28, 1280, 720⟩

/-- A stream environment in which the fakestation URL reports zero frames and
every other URL resolves to the test video. -/
def worldOneBad : String → VidStream :=
  fun u => if u = urlOf "fakestation" 2019 11 13 1000 then ⟨0, 0, 0, 0⟩
    else ⟨17097, 28, 1280, 720⟩

/-- Zero-padding to width 2 is a no-op on values that already have two digits. -/
theorem pad2_of_ten_le (n : Nat) (h : 10 ≤ n) : pad2 n = toString n := by
  unfold pad2
  rw [if_neg (by omega)]

/-- Zero-padding to width 4 is a no-op on values that already have four digits. -/
theorem pad4_of_thousand_le (n : Nat) (h : 1000 ≤ n) : pad4 n = toString n := by
  unfold pad4
  rw [if_neg (by omega), if_neg (by omega), if_neg (by omega)]

/-- A positive step never trips the zero-step error: the range is the list of
multiples of the step below the stop. -/
theorem pyRange_pos (stop : Nat) (step : Int) (h : 0 < step) :
    pyRange stop step =
      Except.ok ((List.range ((stop + step.toNat - 1) / step.toNat)).map
        (fun k => k * step.toNat)) := by
  unfold pyRange
  rw [if_neg (by omega), if_neg (by omega)]

/-- When every sampled index decodes, the frame loop writes every index and
raises nothing. -/
theorem frameLoop_of_all_decode (decode : Nat → Bool) :
    ∀ l : List Nat, (∀ i ∈ l, decode i = true) → frameLoop decode l = (l, none) := by
  intro l
  induction l with
  | nil => intro _; rfl
  | cons i rest ih =>
    intro h
    have hi : decode i = true := h i (List.mem_cons_self i rest)
    have hrest := ih (fun j hj => h j (List.mem_cons_of_mem i hj))
    simp [frameLoop, hi, hrest]

/-- Every index the frame loop wrote an image for decoded successfully. -/
theorem frameLoop_saved_decoded (decode : Nat → Bool) :
    ∀ l m, m ∈ (frameLoop decode l).1 → decode m = true ∧ m ∈ l := by
  intro l
  induction l with
  | nil => intro m hm; simp [frameLoop] at hm
  | cons i rest ih =>
    intro m hm
    by_cases hi : decode i = true
    · simp [frameLoop, hi] at hm
      rcases hm with hm | hm
      · subst hm; exact ⟨hi, List.mem_cons_self m rest⟩
      · rcases ih m hm with ⟨h1, h2⟩
        exact ⟨h1, List.mem_cons_of_mem i h2⟩
    · simp only [frameLoop, if_neg hi] at hm
      simp at hm

/-- The only error the frame loop raises is the decode failure of a sampled
index. -/
theorem frameLoop_err_decode (decode : Nat → Bool) :
    ∀ l e, (frameLoop decode l).2 = some e →
      ∃ i ∈ l, decode i = false ∧ e = SaveError.frameDecodeError i := by
  intro l
  induction l with
  | nil => intro e he; simp [frameLoop] at he
  | cons i rest ih =>
    intro e he
    by_cases hi : decode i = true
    · simp only [frameLoop, if_pos hi] at he
      rcases ih e he with ⟨j, hj, hdj, hej⟩
      exact ⟨j, List.mem_cons_of_mem i hj, hdj, hej⟩
    · simp only [frameLoop, if_neg hi] at he
      refine ⟨i, List.mem_cons_self i rest, Bool.eq_false_iff.mpr hi, ?_⟩
      injection he with he
      exact he.symm

/-- A decode failure among the sampled indices ends the loop with the error
naming the first failing index. -/
theorem frameLoop_err_of_bad (decode : Nat → Bool) :
    ∀ l, (∃ i ∈ l, decode i = false) →
      ∃ j ∈ l, decode j = false ∧
        (frameLoop decode l).2 = some (SaveError.frameDecodeError j) := by
  intro l
  induction l with
  | nil => intro h; simp at h
  | cons i rest ih =>
    intro h
    by_cases hi : decode i = true
    · rcases h with ⟨m, hm, hdm⟩
      rcases List.mem_cons.mp hm with rfl | hmr
      · rw [hi] at hdm; cases hdm
      · rcases ih ⟨m, hmr, hdm⟩ with ⟨j, hj, hdj, hej⟩
        refine ⟨j, List.mem_cons_of_mem i hj, hdj, ?_⟩
        simp only [frameLoop, if_pos hi]
        exact hej
    · refine ⟨i, List.mem_cons_self i rest, Bool.eq_false_iff.mpr hi, ?_⟩
      simp only [frameLoop, if_neg hi]

/-- C2 counterexample: the claim asserts the zero-padded URL template for both
implementations, but at month 3 the webcat_utils.py implementation builds the
URL with an unpadded month and day segment, different from the padded URL of
pywebcat/utils.py. -/
theorem legacy_url_unpadded_month :
    urlOfLegacy "buxtoncoastalcam" 2019 3 13 1000 ≠
      urlOf "buxtoncoastalcam" 2019 3 13 1000 ∧
    urlOfLegacy "buxtoncoastalcam" 2019 3 13 1000 =
      "http://webcat-video.axds.co/buxtoncoastalcam/raw/2019/2019_3/2019_3_13/buxtoncoastalcam.2019-3-13_1000.mp4" ∧
    urlOf "buxtoncoastalcam" 2019 3 13 1000 =
      "http://webcat-video.axds.co/buxtoncoastalcam/raw/2019/2019_03/2019_03_13/buxtoncoastalcam.2019-03-13_1000.mp4" := by
  decide

/-- C2 (amended): pywebcat's generate_url builds exactly the zero-padded URL
template (month, day padded to 2 digits, time to 4); the buxtoncoastalcam
example key yields the specified URL under both implementations; and the
webcat_utils.py implementation, which formats the raw values unpadded, agrees
with the padded template whenever month and day already have two digits and
time four. -/
theorem generate_url_padded_template :
    urlOf "buxtoncoastalcam" 2019 11 13 1000 =
      "http://webcat-video.axds.co/buxtoncoastalcam/raw/2019/2019_11/2019_11_13/buxtoncoastalcam.2019-11-13_1000.mp4" ∧
    urlOfLegacy "buxtoncoastalcam" 2019 11 13 1000 =
      "http://webcat-video.axds.co/buxtoncoastalcam/raw/2019/2019_11/2019_11_13/buxtoncoastalcam.2019-11-13_1000.mp4" ∧
    (∀ (station : String) (year month day time : Nat),
      10 ≤ month → 10 ≤ day → 1000 ≤ time →
      urlOfLegacy station year month day time = urlOf station year month day time) := by
  refine ⟨by decide, by decide, ?_⟩
  intro s y m d t hm hd ht
  unfold urlOf urlOfLegacy
  rw [pad2_of_ten_le m hm, pad2_of_ten_le d hd, pad4_of_thousand_le t ht]

/-- Witness for the C2 theorem at a concrete key with two-digit month and day
and four-digit time. -/
theorem generate_url_padded_template_witness :
    urlOfLegacy "x" 5 10 10 1000 = urlOf "x" 5 10 10 1000 :=
  generate_url_padded_template.2.2 "x" 5 10 10 1000 (by decide) (by decide) (by decide)

/-- C8: the canonical name set by generate_url is the raw unpadded
station_year_month_day_time string under both implementations, while the
pywebcat URL zero-pads: month 3 appears as 3 in the name and as 03 in the URL. -/
theorem generate_url_name_unpadded :
    (∀ (world : String → VidStream) (st : WCState) (s : String) (y m d t : Nat),
      (world (urlOf s y m d t)).frames ≠ 0 →
      (generate_url world st s y m d t).1.name =
        some (s ++ "_" ++ toString y ++ "_" ++ toString m ++ "_" ++ toString d ++
          "_" ++ toString t)) ∧
    (∀ (world : String → VidStream) (st : WCState) (s : String) (y m d t : Nat),
      (world (urlOfLegacy s y m d t)).frames ≠ 0 →
      (generate_url_legacy world st s y m d t).1.name =
        some (s ++ "_" ++ toString y ++ "_" ++ toString m ++ "_" ++ toString d ++
          "_" ++ toString t)) ∧
    nameOf "buxtoncoastalcam" 2019 3 13 1000 = "buxtoncoastalcam_2019_3_13_1000" ∧
    urlOf "buxtoncoastalcam" 2019 3 13 1000 =
      "http://webcat-video.axds.co/buxtoncoastalcam/raw/2019/2019_03/2019_03_13/buxtoncoastalcam.2019-03-13_1000.mp4" := by
  refine ⟨?_, ?_, by decide, by decide⟩
  · intro world st s y m d t h
    simp [generate_url, h, nameOf]
  · intro world st s y m d t h
    simp [generate_url_legacy, h, nameOf]

/-- Witness for the C8 theorem: with every URL resolving to the test video, the
session name after generate_url is the unpadded string. -/
theorem generate_url_name_unpadded_witness :
    (generate_url worldGood WCState.init "buxtoncoastalcam" 2019 3 13 1000).1.name =
      some ("buxtoncoastalcam" ++ "_" ++ toString 2019 ++ "_" ++ toString 3 ++ "_" ++
        toString 13 ++ "_" ++ toString 1000) :=
  generate_url_name_unpadded.1 worldGood WCState.init "buxtoncoastalcam" 2019 3 13 1000
    (by decide)

/-- C10: delta_t = 0 passes the interval precondition check whenever the video
duration is at least one whole second, but save_frames then fails at the index
range construction with the zero-step range error, which is not the interval
error. -/
theorem save_frames_zero_delta_range_error (decode : Nat → Bool) (dirExisted : Bool)
    (url name fout_path : String) (frames fps : Nat) (save_csv : Bool)
    (hdur : 1 ≤ frames / fps) :
    ¬ ((frames / fps : Nat) : Int) ≤ (0 : Int) ∧
    (save_frames decode dirExisted url name frames fps 0 fout_path save_csv).err =
      some SaveError.rangeStepZero ∧
    (∀ d : Nat, (SaveError.rangeStepZero : SaveError) ≠ SaveError.intervalError d) := by
  have hcheck : ¬ ((frames / fps : Nat) : Int) ≤ (0 : Int) := by
    omega
  refine ⟨hcheck, ?_, by intro d hc; cases hc⟩
  unfold save_frames
  rw [if_neg hcheck]
  simp [pyRange]

/-- Witness for the C10 theorem at a 100-frame, 10-fps video. -/
theorem save_frames_zero_delta_range_error_witness :
    (save_frames (fun _ => true) false "u" "n" 100 10 0 "" true).err =
      some SaveError.rangeStepZero :=
  (save_frames_zero_delta_range_error (fun _ => true) false "u" "n" "" 100 10 true
    (by decide)).2.1

/-- C3: save_frames raises the interval error exactly when delta_t is not
strictly below the duration in whole seconds (floor of frames/fps), and when it
raises, it raises first: no directory is removed or created, no frame image is
written, no manifest is produced. -/
theorem save_frames_interval_guard (decode : Nat → Bool) (dirExisted : Bool)
    (url name fout_path : String) (frames fps : Nat) (delta_t : Int) (save_csv : Bool)
    (hfps : 1 ≤ fps) :
    ((save_frames decode dirExisted url name frames fps delta_t fout_path save_csv).err =
        some (SaveError.intervalError (frames / fps)) ↔
      ((frames / fps : Nat) : Int) ≤ delta_t) ∧
    (((frames / fps : Nat) : Int) ≤ delta_t →
      save_frames decode dirExisted url name frames fps delta_t fout_path save_csv =
        ⟨some (SaveError.intervalError (frames / fps)), false, false, [], false, none⟩) := by
  have hyes : ((frames / fps : Nat) : Int) ≤ delta_t →
      save_frames decode dirExisted url name frames fps delta_t fout_path save_csv =
        ⟨some (SaveError.intervalError (frames / fps)), false, false, [], false, none⟩ := by
    intro h
    unfold save_frames
    rw [if_pos h]
  refine ⟨⟨?_, fun h => by rw [hyes h]⟩, hyes⟩
  intro herr
  by_contra hlt
  unfold save_frames at herr
  rw [if_neg hlt] at herr
  cases hpr : pyRange (frames + 1) (delta_t * (fps : Int)) with
  | error msg => rw [hpr] at herr; simp at herr
  | ok l =>
    rw [hpr] at herr
    cases he : (frameLoop decode l).2 with
    | none => simp [he] at herr
    | some e =>
      simp only [he] at herr
      simp at herr
      rcases frameLoop_err_decode decode l e he with ⟨i, _, _, hei⟩
      rw [herr] at hei
      exact SaveError.noConfusion hei

/-- Witness for the C3 theorem: the test video (17097 frames, 28 fps, duration
610 s) rejects delta_t = 700 with the interval error and nothing else happens. -/
theorem save_frames_interval_guard_witness :
    save_frames (fun _ => true) false "u" "n" 17097 28 700 "" true =
      ⟨some (SaveError.intervalError (17097 / 28)), false, false, [], false, none⟩ :=
  (save_frames_interval_guard (fun _ => true) false "u" "n" "" 17097 28 700 true
    (by decide)).2 (by decide)

/-- C5: generate_url raises exactly when the opened stream reports zero total
frames; otherwise it sets the session url, name and video to the values derived
from the key, and the held handle exposes a positive frame count together with
its width, height and fps. -/
theorem generate_url_probe_spec (world : String → VidStream) (st : WCState)
    (s : String) (y m d t : Nat) :
    ((generate_url world st s y m d t).2.isSome ↔ (world (urlOf s y m d t)).frames = 0) ∧
    ((world (urlOf s y m d t)).frames ≠ 0 →
      (generate_url world st s y m d t).1 =
        ⟨some (urlOf s y m d t), some (nameOf s y m d t), some (world (urlOf s y m d t))⟩ ∧
      0 < (world (urlOf s y m d t)).frames ∧
      (generate_url world st s y m d t).1.frames = some (world (urlOf s y m d t)).frames ∧
      (generate_url world st s y m d t).1.fps = some (world (urlOf s y m d t)).fps ∧
      (generate_url world st s y m d t).1.width = some (world (urlOf s y m d t)).width ∧
      (generate_url world st s y m d t).1.height = some (world (urlOf s y m d t)).height) := by
  by_cases h : (world (urlOf s y m d t)).frames = 0
  · exact ⟨by simp [generate_url, h], fun hc => absurd h hc⟩
  · refine ⟨by simp [generate_url, h], fun _ => ?_⟩
    refine ⟨by simp [generate_url, h], by omega, ?_, ?_, ?_, ?_⟩ <;>
      simp [generate_url, h, WCState.frames, WCState.fps, WCState.width, WCState.height]

/-- Witness for the C5 theorem: probing the test key against an environment
where the URL resolves sets all three session fields and holds a stream with
17097 frames. -/
theorem generate_url_probe_spec_witness :
    (generate_url worldGood WCState.init "buxtoncoastalcam" 2019 11 13 1000).1 =
      ⟨some (urlOf "buxtoncoastalcam" 2019 11 13 1000),
        some (nameOf "buxtoncoastalcam" 2019 11 13 1000),
        some (worldGood (urlOf "buxtoncoastalcam" 2019 11 13 1000))⟩ ∧
    0 < (worldGood (urlOf "buxtoncoastalcam" 2019 11 13 1000)).frames :=
  ⟨((generate_url_probe_spec worldGood WCState.init "buxtoncoastalcam" 2019 11 13
      1000).2 (by decide)).1,
    ((generate_url_probe_spec worldGood WCState.init "buxtoncoastalcam" 2019 11 13
      1000).2 (by decide)).2.1⟩

/-- C9: a generate_url call that raises leaves the session fields exactly as
they were; after a successful probe of key A, a failed probe of key B leaves
the session still holding key A's url, name and video handle. -/
theorem generate_url_failed_probe_preserves_session (world : String → VidStream)
    (st : WCState) (sA : String) (yA mA dA tA : Nat) (sB : String) (yB mB dB tB : Nat)
    (hA : (world (urlOf sA yA mA dA tA)).frames ≠ 0)
    (hB : (world (urlOf sB yB mB dB tB)).frames = 0) :
    (∀ (st' : WCState) (s : String) (y m d t : Nat),
      (generate_url world st' s y m d t).2.isSome →
      (generate_url world st' s y m d t).1 = st') ∧
    (generate_url world (generate_url world st sA yA mA dA tA).1 sB yB mB dB tB).2.isSome ∧
    (generate_url world (generate_url world st sA yA mA dA tA).1 sB yB mB dB tB).1 =
      ⟨some (urlOf sA yA mA dA tA), some (nameOf sA yA mA dA tA),
        some (world (urlOf sA yA mA dA tA))⟩ := by
  have hpres : ∀ (st' : WCState) (s : String) (y m d t : Nat),
      (generate_url world st' s y m d t).2.isSome →
      (generate_url world st' s y m d t).1 = st' := by
    intro st' s y m d t hsome
    by_cases h : (world (urlOf s y m d t)).frames = 0
    · simp [generate_url, h]
    · simp [generate_url, h] at hsome
  refine ⟨hpres, by simp [generate_url, hB], ?_⟩
  rw [hpres _ sB yB mB dB tB (by simp [generate_url, hB])]
  simp [generate_url, hA]

/-- Witness for the C9 theorem: in an environment where only the fakestation
URL is dead, probing buxtoncoastalcam and then fakestation leaves the session
holding the buxtoncoastalcam values. -/
theorem generate_url_failed_probe_preserves_session_witness :
    (generate_url worldOneBad
        (generate_url worldOneBad WCState.init "buxtoncoastalcam" 2019 11 13 1000).1
        "fakestation" 2019 11 13 1000).1 =
      ⟨some (urlOf "buxtoncoastalcam" 2019 11 13 1000),
        some (nameOf "buxtoncoastalcam" 2019 11 13 1000),
        some (worldOneBad (urlOf "buxtoncoastalcam" 2019 11 13 1000))⟩ :=
  (generate_url_failed_probe_preserves_session worldOneBad WCState.init
    "buxtoncoastalcam" 2019 11 13 1000 "fakestation" 2019 11 13 1000
    (by decide) (by decide)).2.2

/-- The multiples of a positive step that a save_frames run samples: list
length, strict increase, start at 0, the bound by frames, and the presence of
the largest multiple. -/
theorem sample_list_shape (frames s : Nat) (hs : 1 ≤ s) :
    ((List.range (frames / s + 1)).map (fun k => k * s)).length = frames / s + 1 ∧
    List.Pairwise (· < ·) ((List.range (frames / s + 1)).map (fun k => k * s)) ∧
    ((List.range (frames / s + 1)).map (fun k => k * s)).head? = some 0 ∧
    (∀ x ∈ (List.range (frames / s + 1)).map (fun k => k * s), x ≤ frames) ∧
    (frames / s) * s ∈ (List.range (frames / s + 1)).map (fun k => k * s) := by
  refine ⟨by simp, ?_, ?_, ?_, ?_⟩
  · refine List.Pairwise.map _ ?_ (List.pairwise_lt_range (frames / s + 1))
    intro a b hab
    exact Nat.mul_lt_mul_of_lt_of_le hab (Nat.le_refl s) hs
  · rw [List.range_succ_eq_map]
    simp
  · intro x hx
    rcases List.mem_map.mp hx with ⟨k, hk, rfl⟩
    have hk2 : k ≤ frames / s := Nat.lt_succ_iff.mp (List.mem_range.mp hk)
    calc k * s ≤ (frames / s) * s := Nat.mul_le_mul_right s hk2
      _ ≤ frames := Nat.div_mul_le_self frames s
  · exact List.mem_map.mpr ⟨frames / s, List.mem_range.mpr (Nat.lt_succ_self _), rfl⟩

/-- C1: under the documented precondition (frames, fps, delta_t at least 1 and
delta_t below the duration), the sampled indices are exactly the multiples of
step = delta_t * fps from 0 up to and including the largest multiple that does
not exceed frames: floor(frames/step) + 1 indices, strictly increasing,
starting at 0, never exceeding frames; a run in which every sampled index
decodes raises nothing and writes exactly those indices. -/
theorem save_frames_sample_indices (frames fps : Nat) (delta_t : Int)
    (hframes : 1 ≤ frames) (hfps : 1 ≤ fps) (hdelta : 1 ≤ delta_t)
    (hlt : delta_t < ((frames / fps : Nat) : Int)) :
    pyRange (frames + 1) (delta_t * (fps : Int)) =
      Except.ok ((List.range (frames / (delta_t * (fps : Int)).toNat + 1)).map
        (fun k => k * (delta_t * (fps : Int)).toNat)) ∧
    (∀ (dirExisted : Bool) (url name fout_path : String) (save_csv : Bool),
      (save_frames (fun _ => true) dirExisted url name frames fps delta_t fout_path
          save_csv).err = none ∧
      (save_frames (fun _ => true) dirExisted url name frames fps delta_t fout_path
          save_csv).savedFrames =
        (List.range (frames / (delta_t * (fps : Int)).toNat + 1)).map
          (fun k => k * (delta_t * (fps : Int)).toNat)) ∧
    ((List.range (frames / (delta_t * (fps : Int)).toNat + 1)).map
        (fun k => k * (delta_t * (fps : Int)).toNat)).length =
      frames / (delta_t * (fps : Int)).toNat + 1 ∧
    List.Pairwise (· < ·) ((List.range (frames / (delta_t * (fps : Int)).toNat + 1)).map
      (fun k => k * (delta_t * (fps : Int)).toNat)) ∧
    ((List.range (frames / (delta_t * (fps : Int)).toNat + 1)).map
        (fun k => k * (delta_t * (fps : Int)).toNat)).head? = some 0 ∧
    (∀ x ∈ (List.range (frames / (delta_t * (fps : Int)).toNat + 1)).map
        (fun k => k * (delta_t * (fps : Int)).toNat), x ≤ frames) ∧
    (frames / (delta_t * (fps : Int)).toNat) * (delta_t * (fps : Int)).toNat ∈
      (List.range (frames / (delta_t * (fps : Int)).toNat + 1)).map
        (fun k => k * (delta_t * (fps : Int)).toNat) := by
  have hfpsI : (1 : Int) ≤ (fps : Int) := by exact_mod_cast hfps
  have hstepI : (1 : Int) ≤ delta_t * (fps : Int) := by
    calc (1 : Int) = 1 * 1 := by ring
      _ ≤ delta_t * (fps : Int) :=
        mul_le_mul hdelta hfpsI (by norm_num) (le_trans (by norm_num) hdelta)
  have hs : 1 ≤ (delta_t * (fps : Int)).toNat := by omega
  have hpr : pyRange (frames + 1) (delta_t * (fps : Int)) =
      Except.ok ((List.range (frames / (delta_t * (fps : Int)).toNat + 1)).map
        (fun k => k * (delta_t * (fps : Int)).toNat)) := by
    rw [pyRange_pos (frames + 1) (delta_t * (fps : Int)) (by omega)]
    have harith : frames + 1 + (delta_t * (fps : Int)).toNat - 1 =
        frames + (delta_t * (fps : Int)).toNat := by omega
    rw [harith, Nat.add_div_right frames (by omega)]
  have hshape := sample_list_shape frames ((delta_t * (fps : Int)).toNat) hs
  refine ⟨hpr, ?_, hshape.1, hshape.2.1, hshape.2.2.1, hshape.2.2.2.1, hshape.2.2.2.2⟩
  intro dirExisted url name fout_path save_csv
  have hcheck : ¬ ((frames / fps : Nat) : Int) ≤ delta_t := by omega
  unfold save_frames
  rw [if_neg hcheck, hpr]
  have hfl := frameLoop_of_all_decode (fun _ => true)
    ((List.range (frames / (delta_t * (fps : Int)).toNat + 1)).map
      (fun k => k * (delta_t * (fps : Int)).toNat)) (fun i _ => rfl)
  simp [hfl]

/-- Witness for the C1 theorem: the test video with delta_t = 300 samples
exactly the indices 0, 8400, 16800. -/
theorem save_frames_sample_indices_witness :
    ((1 ≤ (300 : Int) ∧ (300 : Int) < ((17097 / 28 : Nat) : Int)) ∧
      pyRange (17097 + 1) ((300 : Int) * ((28 : Nat) : Int)) =
        Except.ok ((List.range (17097 / ((300 : Int) * ((28 : Nat) : Int)).toNat + 1)).map
          (fun k => k * ((300 : Int) * ((28 : Nat) : Int)).toNat))) ∧
    (save_frames (fun _ => true) false "u" "n" 17097 28 300 "" true).savedFrames =
      [0, 8400, 16800] :=
  ⟨⟨⟨by decide, by decide⟩,
    (save_frames_sample_indices 17097 28 300 (by decide) (by decide) (by decide)
      (by decide)).1⟩,
    by decide⟩

/-- C6: when a sampled index fails to decode during a run that passed the
interval check, save_frames surfaces the frame-decode error naming a failing
sampled index; every index an image was written for decoded successfully, so
the failing index is neither silently skipped nor written, and no manifest is
produced. -/
theorem save_frames_decode_failure_surfaces (decode : Nat → Bool) (dirExisted : Bool)
    (url name fout_path : String) (frames fps : Nat) (delta_t : Int) (save_csv : Bool)
    (stepRange : List Nat) (i : Nat)
    (hcheck : ¬ ((frames / fps : Nat) : Int) ≤ delta_t)
    (hpr : pyRange (frames + 1) (delta_t * (fps : Int)) = Except.ok stepRange)
    (hi : i ∈ stepRange) (hbad : decode i = false) :
    (∃ j ∈ stepRange, decode j = false ∧
      (save_frames decode dirExisted url name frames fps delta_t fout_path
        save_csv).err = some (SaveError.frameDecodeError j)) ∧
    (∀ m ∈ (save_frames decode dirExisted url name frames fps delta_t fout_path
        save_csv).savedFrames, decode m = true) ∧
    i ∉ (save_frames decode dirExisted url name frames fps delta_t fout_path
        save_csv).savedFrames ∧
    (save_frames decode dirExisted url name frames fps delta_t fout_path
        save_csv).csv = none := by
  rcases frameLoop_err_of_bad decode stepRange ⟨i, hi, hbad⟩ with ⟨j, hj, hdj, hej⟩
  have hout : save_frames decode dirExisted url name frames fps delta_t fout_path
      save_csv =
      ⟨some (SaveError.frameDecodeError j), dirExisted, true,
        (frameLoop decode stepRange).1, true, none⟩ := by
    unfold save_frames
    rw [if_neg hcheck, hpr]
    simp [hej]
  have hsaved : ∀ m ∈ (frameLoop decode stepRange).1, decode m = true :=
    fun m hm => (frameLoop_saved_decoded decode stepRange m hm).1
  rw [hout]
  refine ⟨⟨j, hj, hdj, rfl⟩, hsaved, ?_, rfl⟩
  intro hmem
  rw [hsaved i hmem] at hbad
  cases hbad

/-- Witness for the C6 theorem: with the decode of index 8400 failing, the test
run surfaces the frame-decode error and writes no image for 8400. -/
theorem save_frames_decode_failure_surfaces_witness :
    (∃ j ∈ [0, 8400, 16800], (fun n => decide (n ≠ 8400)) j = false ∧
      (save_frames (fun n => decide (n ≠ 8400)) false "u" "n" 17097 28 300 ""
        true).err = some (SaveError.frameDecodeError j)) ∧
    (∀ m ∈ (save_frames (fun n => decide (n ≠ 8400)) false "u" "n" 17097 28 300 ""
        true).savedFrames, (fun n => decide (n ≠ 8400)) m = true) ∧
    8400 ∉ (save_frames (fun n => decide (n ≠ 8400)) false "u" "n" 17097 28 300 ""
        true).savedFrames ∧
    (save_frames (fun n => decide (n ≠ 8400)) false "u" "n" 17097 28 300 ""
        true).csv = none :=
  save_frames_decode_failure_surfaces (fun n => decide (n ≠ 8400)) false "u" "n" ""
    17097 28 300 true [0, 8400, 16800] 8400 (by decide) (by decide) (by decide)
    (by decide)

/-- Under the sampling precondition the step is positive and the range call
yields the multiples of the step up to frames. -/
theorem pyRange_of_precondition (frames fps : Nat) (delta_t : Int)
    (hfps : 1 ≤ fps) (hdelta : 1 ≤ delta_t) :
    pyRange (frames + 1) (delta_t * (fps : Int)) =
      Except.ok ((List.range (frames / (delta_t * (fps : Int)).toNat + 1)).map
        (fun k => k * (delta_t * (fps : Int)).toNat)) := by
  have hfpsI : (1 : Int) ≤ (fps : Int) := by exact_mod_cast hfps
  have hstepI : (1 : Int) ≤ delta_t * (fps : Int) := by
    calc (1 : Int) = 1 * 1 := by ring
      _ ≤ delta_t * (fps : Int) :=
        mul_le_mul hdelta hfpsI (by norm_num) (le_trans (by norm_num) hdelta)
  rw [pyRange_pos (frames + 1) (delta_t * (fps : Int)) (by omega)]
  have harith : frames + 1 + (delta_t * (fps : Int)).toNat - 1 =
      frames + (delta_t * (fps : Int)).toNat := by omega
  rw [harith, Nat.add_div_right frames (by omega)]

/-- A run that passes the interval check and decodes every sampled frame ends
with no error, the sampled images written, and the manifest produced exactly
when requested. -/
theorem save_frames_ok_run (dirExisted : Bool) (url name fout_path : String)
    (frames fps : Nat) (delta_t : Int) (save_csv : Bool)
    (hfps : 1 ≤ fps) (hdelta : 1 ≤ delta_t)
    (hlt : delta_t < ((frames / fps : Nat) : Int)) :
    save_frames (fun _ => true) dirExisted url name frames fps delta_t fout_path
        save_csv =
      ⟨none, dirExisted, true,
        (List.range (frames / (delta_t * (fps : Int)).toNat + 1)).map
          (fun k => k * (delta_t * (fps : Int)).toNat),
        true,
        if save_csv then
          some (csvRows url name fout_path
            ((List.range (frames / (delta_t * (fps : Int)).toNat + 1)).map
              (fun k => k * (delta_t * (fps : Int)).toNat)))
        else none⟩ := by
  have hcheck : ¬ ((frames / fps : Nat) : Int) ≤ delta_t := by omega
  unfold save_frames
  rw [if_neg hcheck, pyRange_of_precondition frames fps delta_t hfps hdelta]
  have hfl := frameLoop_of_all_decode (fun _ => true)
    ((List.range (frames / (delta_t * (fps : Int)).toNat + 1)).map
      (fun k => k * (delta_t * (fps : Int)).toNat)) (fun i _ => rfl)
  simp [hfl]

/-- Filtering for a path after filtering it away yields nothing. -/
theorem filter_ne_then_eq (p : String) :
    ∀ store : List (String × List (List String)),
      (store.filter (fun e => e.1 != p)).filter (fun e => e.1 == p) = [] := by
  intro store
  induction store with
  | nil => rfl
  | cons a rest ih =>
    by_cases h : a.1 = p
    · simp [List.filter_cons, h, ih]
    · simp [List.filter_cons, h, ih]

/-- Writing the same path twice leaves exactly one entry for it: the latest
content. -/
theorem writeFile_overwrite (store : List (String × List (List String)))
    (p : String) (t1 t2 : List (List String)) :
    (writeFile (writeFile store p t1) p t2).filter (fun e => e.1 == p) =
      [(p, t2)] := by
  unfold writeFile
  simp [List.filter_cons, filter_ne_then_eq p]

/-- C7 (amended): a successful run with the manifest enabled writes one table
at fout_path/name.csv with a header row followed by exactly one data row per
sample; every row has five fields, in the order unnamed-row-index, url, name,
frame, path — pandas to_csv keeps its default index, so a leading index column
precedes the four named columns.  Running the same call twice against the same
directory leaves exactly one manifest holding the latest run's rows. -/
theorem manifest_format_and_overwrite (dirExisted dirExisted2 : Bool)
    (url name fout_path : String) (frames fps : Nat) (delta_t : Int)
    (store : List (String × List (List String)))
    (hfps : 1 ≤ fps) (hdelta : 1 ≤ delta_t)
    (hlt : delta_t < ((frames / fps : Nat) : Int)) :
    ∃ idxs : List Nat,
      (save_frames (fun _ => true) dirExisted url name frames fps delta_t fout_path
          true).csv = some (csvRows url name fout_path idxs) ∧
      (csvRows url name fout_path idxs).length = idxs.length + 1 ∧
      (csvRows url name fout_path idxs).head? =
        some ["", "url", "name", "frame", "path"] ∧
      (∀ row ∈ csvRows url name fout_path idxs, row.length = 5) ∧
      (save_frames_fs
          (save_frames_fs store (fun _ => true) dirExisted url name frames fps
            delta_t fout_path true)
          (fun _ => true) dirExisted2 url name frames fps delta_t fout_path
          true).filter (fun e => e.1 == manifestPath fout_path name) =
        [(manifestPath fout_path name, csvRows url name fout_path idxs)] := by
  refine ⟨(List.range (frames / (delta_t * (fps : Int)).toNat + 1)).map
    (fun k => k * (delta_t * (fps : Int)).toNat), ?_, ?_, rfl, ?_, ?_⟩
  · rw [save_frames_ok_run dirExisted url name fout_path frames fps delta_t true
      hfps hdelta hlt]
    simp
  · simp [csvRows]
  · intro row hr
    rcases List.mem_cons.mp hr with hrow | hrow
    · rw [hrow]
      rfl
    · rcases List.mem_map.mp hrow with ⟨q, _, rfl⟩
      rfl
  · unfold save_frames_fs
    rw [save_frames_ok_run dirExisted url name fout_path frames fps delta_t true
      hfps hdelta hlt,
      save_frames_ok_run dirExisted2 url name fout_path frames fps delta_t true
      hfps hdelta hlt]
    simp only [if_pos rfl]
    exact writeFile_overwrite store (manifestPath fout_path name) _ _

/-- Witness for the C7 theorem: the test run against a directory already
holding a stale manifest leaves exactly the latest three-sample table. -/
theorem manifest_format_and_overwrite_witness :
    ∃ idxs : List Nat,
      (save_frames (fun _ => true) false "u" "nm" 17097 28 300 "out" true).csv =
        some (csvRows "u" "nm" "out" idxs) ∧
      (csvRows "u" "nm" "out" idxs).length = idxs.length + 1 ∧
      (csvRows "u" "nm" "out" idxs).head? =
        some ["", "url", "name", "frame", "path"] ∧
      (∀ row ∈ csvRows "u" "nm" "out" idxs, row.length = 5) ∧
      (save_frames_fs
          (save_frames_fs [(manifestPath "out" "nm", [["stale"]])] (fun _ => true)
            false "u" "nm" 17097 28 300 "out" true)
          (fun _ => true) true "u" "nm" 17097 28 300 "out" true).filter
          (fun e => e.1 == manifestPath "out" "nm") =
        [(manifestPath "out" "nm", csvRows "u" "nm" "out" idxs)] :=
  manifest_format_and_overwrite false true "u" "nm" "out" 17097 28 300
    [(manifestPath "out" "nm", [["stale"]])] (by decide) (by decide) (by decide)

/-- C7 counterexample: the claim says the manifest columns are url, name,
frame, path and nothing else, but the written table carries a leading unnamed
index column: the header row has five fields beginning with an empty one, and
each data row begins with the row number. -/
theorem manifest_has_index_column :
    (save_frames (fun _ => true) false "u" "nm" 17097 28 300 "out" true).csv =
      some [["", "url", "name", "frame", "path"],
        ["0", "u", "nm", "0", "out/jpg/frame_0.jpg"],
        ["1", "u", "nm", "8400", "out/jpg/frame_8400.jpg"],
        ["2", "u", "nm", "16800", "out/jpg/frame_16800.jpg"]] ∧
    (["", "url", "name", "frame", "path"] : List String) ≠
      ["url", "name", "frame", "path"] := by
  decide

/-- A key whose URL probe fails leaves the session unchanged and produces no
save outcome; the skip warning is printed (when verbose) while stdout is still
the devnull handle. -/
theorem mainStep_failed_probe (world : String → VidStream) (decode : Nat → Bool)
    (dirExisted : Bool) (directory : String) (interval : Int) (no_meta verbose : Bool)
    (st : WCState) (k : Key)
    (h : (world (urlOf k.station k.year k.month k.day k.time)).frames = 0) :
    mainStep world decode dirExisted directory interval no_meta verbose st k =
      (st, (if verbose then [⟨true, LineKind.warning, skipWarning k⟩] else []),
        none) := by
  unfold mainStep
  simp [generate_url, Key.url, h]

/-- A key whose URL probe succeeds leads to the key's own save_frames call; the
status line and fps echo go to the restored stdout, and a warning is printed
there only if save_frames raised. -/
theorem mainStep_ok_probe (world : String → VidStream) (decode : Nat → Bool)
    (dirExisted : Bool) (directory : String) (interval : Int) (no_meta verbose : Bool)
    (st : WCState) (k : Key)
    (h : (world (urlOf k.station k.year k.month k.day k.time)).frames ≠ 0) :
    mainStep world decode dirExisted directory interval no_meta verbose st k =
      (⟨some (urlOf k.station k.year k.month k.day k.time),
          some (nameOf k.station k.year k.month k.day k.time),
          some (world (urlOf k.station k.year k.month k.day k.time))⟩,
        (if verbose then
          [⟨false, LineKind.status,
            "Saving frames of " ++ nameOf k.station k.year k.month k.day k.time ++
              "..."⟩] else [])
        ++ ((if (keySave world decode dirExisted directory interval no_meta
              k).fpsPrinted then
            [⟨false, LineKind.fpsEcho,
              toString (world (urlOf k.station k.year k.month k.day k.time)).fps⟩]
          else [])
        ++ (match (keySave world decode dirExisted directory interval no_meta
              k).err with
            | some _ => if verbose then [⟨false, LineKind.warning, skipWarning k⟩]
              else []
            | none => ([] : List OutLine))),
        some (keySave world decode dirExisted directory interval no_meta k)) := by
  unfold mainStep keySave Key.url Key.name
  simp [generate_url, h]

/-- A fully processed key prepends itself to the processed list. -/
theorem processedKeys_cons_ok (k : Key) (o : SaveOutcome)
    (rs : List (Key × Option SaveOutcome)) (h : o.err = none) :
    processedKeys ((k, some o) :: rs) = k :: processedKeys rs := by
  simp [processedKeys, List.filter_cons, h]

/-- A key that never reached save_frames adds nothing to the processed list. -/
theorem processedKeys_cons_skip (k : Key) (rs : List (Key × Option SaveOutcome)) :
    processedKeys ((k, none) :: rs) = processedKeys rs := by
  simp [processedKeys, List.filter_cons]

/-- Warning lines distribute over concatenated output. -/
theorem warningLines_append (a b : List OutLine) :
    warningLines (a ++ b) = warningLines a ++ warningLines b := by
  simp [warningLines]

/-- A batch over keys that all probe and save successfully processes every key
and prints no warning. -/
theorem mainLoop_all_ok (world : String → VidStream) (decode : Nat → Bool)
    (dirExisted : Bool) (directory : String) (interval : Int) (no_meta verbose : Bool) :
    ∀ keys : List Key,
      (∀ k ∈ keys,
        (world (urlOf k.station k.year k.month k.day k.time)).frames ≠ 0 ∧
        (keySave world decode dirExisted directory interval no_meta k).err = none) →
      ∀ st : WCState,
        processedKeys (mainLoop world decode dirExisted directory interval no_meta
          verbose st keys).1 = keys ∧
        warningLines (mainLoop world decode dirExisted directory interval no_meta
          verbose st keys).2 = [] := by
  intro keys
  induction keys with
  | nil => intro _ st; exact ⟨rfl, rfl⟩
  | cons k rest ih =>
    intro h st
    rcases h k (List.mem_cons_self k rest) with ⟨h1, h2⟩
    have ihh := ih (fun j hj => h j (List.mem_cons_of_mem k hj))
    simp only [mainLoop]
    rw [mainStep_ok_probe world decode dirExisted directory interval no_meta verbose
      st k h1]
    have hC : (match (keySave world decode dirExisted directory interval no_meta
        k).err with
        | some _ => if verbose then [⟨false, LineKind.warning, skipWarning k⟩] else []
        | none => ([] : List OutLine)) = [] := by
      rw [h2]
    constructor
    · rw [processedKeys_cons_ok k _ _ h2, (ihh _).1]
    · rw [warningLines_append, (ihh _).2, hC]
      cases verbose <;>
        cases hfp : (keySave world decode dirExisted directory interval no_meta
          k).fpsPrinted <;>
        simp [warningLines]

/-- C4 (amended): every per-key failure is caught inside the loop and the batch
continues in cross-product order — in a verbose batch where exactly one key
fails its URL probe and every other key probes and saves successfully, all
N - 1 valid keys are fully processed and the driver, being a total function,
never raises.  However, exactly one skip warning is printed and it carries the
devnull flag: when generate_url raises, cli.py has not yet restored sys.stdout,
so the warning (which does contain the key's URL) never reaches the real
stdout. -/
theorem batch_loop_isolates_failures (world : String → VidStream)
    (decode : Nat → Bool) (dirExisted : Bool) (directory : String) (interval : Int)
    (no_meta : Bool) (bad : Key)
    (hbadfail : (world (urlOf bad.station bad.year bad.month bad.day
      bad.time)).frames = 0) :
    ∀ keys : List Key, keys.count bad = 1 →
      (∀ k ∈ keys, k ≠ bad →
        (world (urlOf k.station k.year k.month k.day k.time)).frames ≠ 0 ∧
        (keySave world decode dirExisted directory interval no_meta k).err = none) →
      ∀ st : WCState,
        processedKeys (mainLoop world decode dirExisted directory interval no_meta
          true st keys).1 = keys.filter (fun j => j != bad) ∧
        warningLines (mainLoop world decode dirExisted directory interval no_meta
          true st keys).2 = [⟨true, LineKind.warning, skipWarning bad⟩] := by
  intro keys
  induction keys with
  | nil => intro hcount; simp at hcount
  | cons k rest ih =>
    intro hcount hgood st
    by_cases hk : k = bad
    · subst hk
      have hrest0 : rest.count k = 0 := by
        simp [List.count_cons] at hcount
        omega
      have hnotmem : k ∉ rest := List.count_eq_zero.mp hrest0
      have hrestgood : ∀ j ∈ rest,
          (world (urlOf j.station j.year j.month j.day j.time)).frames ≠ 0 ∧
          (keySave world decode dirExisted directory interval no_meta j).err =
            none := by
        intro j hj
        refine hgood j (List.mem_cons_of_mem k hj) ?_
        intro hj2
        rw [hj2] at hj
        exact hnotmem hj
      have hall := mainLoop_all_ok world decode dirExisted directory interval
        no_meta true rest hrestgood
      simp only [mainLoop]
      rw [mainStep_failed_probe world decode dirExisted directory interval no_meta
        true st k hbadfail]
      constructor
      · rw [processedKeys_cons_skip, (hall st).1, List.filter_cons]
        simp only [bne_self_eq_false, Bool.false_eq_true, if_false]
        rw [List.filter_eq_self.mpr]
        intro j hj
        simp only [bne_iff_ne, ne_eq]
        intro hjk
        rw [hjk] at hj
        exact hnotmem hj
      · rw [warningLines_append, (hall st).2]
        simp [warningLines]
    · rcases hgood k (List.mem_cons_self k rest) hk with ⟨h1, h2⟩
      have hcount2 : rest.count bad = 1 := by
        simp [List.count_cons, Ne.symm hk] at hcount
        exact hcount
      have ihh := ih hcount2 (fun j hj hjb => hgood j (List.mem_cons_of_mem k hj) hjb)
      simp only [mainLoop]
      rw [mainStep_ok_probe world decode dirExisted directory interval no_meta true
        st k h1]
      have hC : (match (keySave world decode dirExisted directory interval no_meta
          k).err with
          | some _ => if true = true then [⟨false, LineKind.warning, skipWarning k⟩]
            else []
          | none => ([] : List OutLine)) = [] := by
        rw [h2]
      constructor
      · rw [processedKeys_cons_ok k _ _ h2, (ihh _).1, List.filter_cons]
        simp [bne_iff_ne, hk]
      · rw [warningLines_append, (ihh _).2, hC]
        cases hfp : (keySave world decode dirExisted directory interval no_meta
          k).fpsPrinted <;>
          simp [warningLines]

/-- The valid key of the two-key example batch. -/
def kGoodEx : Key := ⟨"buxtoncoastalcam", 2019, 11, 13, 1000⟩

/-- The invalid key of the two-key example batch. -/
def kBadEx : Key := ⟨"buxtoncoastalcam", 2019, 11, 13, 1010⟩

/-- A stream environment in which exactly the invalid example key's URL reports
zero frames. -/
def worldOneBadKey : String → VidStream :=
  fun u => if u = Key.url kBadEx then ⟨0, 0, 0, 0⟩ else ⟨17097, 28, 1280, 720⟩

/-- C4 counterexample: in a verbose two-key batch whose second key is invalid,
the valid key is processed, but zero skip notices reach the real stdout — the
claimed "exactly one skip notice is reported" fails, because the single warning
that is printed goes to the devnull handle that cli.py has not yet restored
when generate_url raises. -/
theorem batch_skip_notice_not_visible :
    batchKeys ["buxtoncoastalcam"] [2019] [11] [13] [1000, 1010] =
      [kGoodEx, kBadEx] ∧
    (processedKeys (mainLoop worldOneBadKey (fun _ => true) false "out" 10 true
      true WCState.init [kGoodEx, kBadEx]).1).length = 1 ∧
    (visibleLines (mainLoop worldOneBadKey (fun _ => true) false "out" 10 true
      true WCState.init [kGoodEx, kBadEx]).2).count (skipWarning kBadEx) = 0 ∧
    warningLines (mainLoop worldOneBadKey (fun _ => true) false "out" 10 true
      true WCState.init [kGoodEx, kBadEx]).2 =
      [⟨true, LineKind.warning, skipWarning kBadEx⟩] := by
  decide

/-- Witness for the C4 theorem on the concrete two-key batch: the valid key is
the whole processed list and the sole warning, carrying the invalid key's URL,
went to the null device. -/
theorem batch_loop_isolates_failures_witness :
    processedKeys (mainLoop worldOneBadKey (fun _ => true) false "out" 10 true
      true WCState.init [kGoodEx, kBadEx]).1 =
      [kGoodEx, kBadEx].filter (fun j => j != kBadEx) ∧
    warningLines (mainLoop worldOneBadKey (fun _ => true) false "out" 10 true
      true WCState.init [kGoodEx, kBadEx]).2 =
      [⟨true, LineKind.warning, skipWarning kBadEx⟩] :=
  batch_loop_isolates_failures worldOneBadKey (fun _ => true) false "out" 10 true
    kBadEx (by decide) [kGoodEx, kBadEx] (by decide) (by decide) WCState.init
